import Mathlib

/-!
Verification of the AI-Bookkeeping core (`src/app.py`): amount
normalisation (`to_num`), bank-statement parsing
(`parse_bank_statement`), ledger posting (`Ledger.post` and the loop in
`main`), trial-balance aggregation (`trial_balance`) and the VAT stage
of `main`.  Monetary values are modelled as rationals; Python `None`
cells as `Option`; raised exceptions as `Except` errors.
-/

namespace Bookkeeping

/-- Calendar date as produced by `datetime.strptime(s, "%d/%m/%Y")`. -/
structure Date where
  day : ℕ
  month : ℕ
  year : ℕ
deriving DecidableEq

/-- Gregorian leap-year rule, used by `strptime` to validate the day. -/
def isLeapYear (y : ℕ) : Bool :=
  (y % 4 == 0 && y % 100 != 0) || y % 400 == 0

def daysInMonth (y m : ℕ) : ℕ :=
  if m = 2 then (if isLeapYear y then 29 else 28)
  else if m = 4 ∨ m = 6 ∨ m = 9 ∨ m = 11 then 30
  else 31

def natOfDigits (l : List Char) : ℕ :=
  l.foldl (fun a c => 10 * a + (c.toNat - 48)) 0

def isDigits (l : List Char) : Bool :=
  !l.isEmpty && l.all (·.isDigit)

/-- Drop leading and trailing whitespace, as Python `str.strip()` and
the whitespace stripping of `float` do. -/
def trimList (l : List Char) : List Char :=
  ((l.dropWhile (·.isWhitespace)).reverse.dropWhile (·.isWhitespace)).reverse

/-- Python `str.strip()`. -/
def pyStrip (s : String) : String := String.mk (trimList s.toList)

/-- Split a character list at every occurrence of `sep`; the result
always has one more part than there are separators. -/
def splitOnChar (sep : Char) : List Char → List (List Char)
  | [] => [[]]
  | c :: t =>
    match splitOnChar sep t with
    | [] => [[]]
    | h :: r => if c = sep then [] :: h :: r else (c :: h) :: r

/-- One left-to-right pass of non-overlapping pattern replacement, the
scan of Python `str.replace`; the fuel bounds the number of steps and is
instantiated with the length of the text. -/
def replaceAux (pat rep : List Char) : ℕ → List Char → List Char
  | _, [] => []
  | 0, l => l
  | fuel + 1, c :: t =>
    if !pat.isEmpty && pat.isPrefixOf (c :: t) then
      rep ++ replaceAux pat rep fuel ((c :: t).drop pat.length)
    else c :: replaceAux pat rep fuel t

/-- Python `s.replace(pat, rep)` for a non-empty pattern. -/
def pyReplace (s pat rep : String) : String :=
  String.mk (replaceAux pat.toList rep.toList s.toList.length s.toList)

/-- Model of `datetime.strptime(s, "%d/%m/%Y")`: a 1–2 digit day, a 1–2
digit month and a 4-digit year separated by slashes, with the month in
1..12 and the day valid for that month; `none` when parsing raises
`ValueError`. -/
def parseDMY (s : String) : Option Date :=
  match splitOnChar '/' s.toList with
  | [d, m, y] =>
    if isDigits d && d.length ≤ 2 && isDigits m && m.length ≤ 2
        && isDigits y && y.length == 4 then
      let dn := natOfDigits d
      let mn := natOfDigits m
      let yn := natOfDigits y
      if 1 ≤ mn && mn ≤ 12 && 1 ≤ dn && dn ≤ daysInMonth yn mn then
        some ⟨dn, mn, yn⟩
      else none
    else none
  | _ => none

/-- The digits of an unsigned decimal literal: an integer part and an
optional fractional part around one decimal point, at least one digit in
all. -/
def parseUnsigned (l : List Char) : Option ℚ :=
  match splitOnChar '.' l with
  | [ip] => if isDigits ip then some (natOfDigits ip : ℚ) else none
  | [ip, fp] =>
    if ip.all (·.isDigit) && fp.all (·.isDigit) && !(ip.isEmpty && fp.isEmpty) then
      some ((natOfDigits ip : ℚ) + (natOfDigits fp : ℚ) / 10 ^ fp.length)
    else none
  | _ => none

/-- Model of Python `float(s)` on plain decimal tokens: optional
surrounding whitespace, an optional sign, then digits with at most one
decimal point and at least one digit; `none` when `float` raises
`ValueError`.  (Exponents, `inf`/`nan` and digit-group underscores,
which `float` also accepts, never arise from currency text and are not
modelled.) -/
def parseFloat (s : String) : Option ℚ :=
  match trimList s.toList with
  | '-' :: r => (parseUnsigned r).map (fun q => -q)
  | '+' :: r => parseUnsigned r
  | r => parseUnsigned r

/-- The cleaning chain of `to_num` (app.py line 45):
`x.replace(" ", "").replace(",", "").replace("R", "").replace("ZAR", "")`. -/
def clean (s : String) : String :=
  pyReplace (pyReplace (pyReplace (pyReplace s " " "") "," "") "R" "") "ZAR" ""

/-- `to_num` (app.py lines 42–45).  The argument is a cell value, `none`
modelling Python `None`; the result is `none` when `float` raises
(the spec's `NumberFormatError`). -/
def to_num (x : Option String) : Option ℚ :=
  match x with
  | none => some 0
  | some s => if s = "" then some 0 else parseFloat (clean s)

/-- `VAT_RATE = 0.15` (app.py line 15). -/
def vatRate : ℚ := 15 / 100

/-- Round half to even to an integer, as Python `round` resolves ties. -/
def roundHalfEven (q : ℚ) : ℤ :=
  if q - ⌊q⌋ < 1 / 2 then ⌊q⌋
  else if 1 / 2 < q - ⌊q⌋ then ⌊q⌋ + 1
  else if ⌊q⌋ % 2 = 0 then ⌊q⌋ else ⌊q⌋ + 1

/-- Python `round(q, 2)`. -/
def round2 (q : ℚ) : ℚ := (roundHalfEven (q * 100) : ℚ) / 100

/-- `calculate_vat` (app.py lines 17–18). -/
def calculate_vat (amount : ℚ) : ℚ :=
  round2 (amount * vatRate / (1 + vatRate))

/-- A `pdfplumber` table cell: a string, or `none` for Python `None`. -/
abbrev Cell := Option String

abbrev TableRow := List Cell

abbrev Table := List TableRow

/-- A row of the intermediate `records` list (app.py line 49).  The
description is `row[2]`, which may itself be `None`. -/
structure RawRecord where
  date : Date
  description : Option String
  amount : ℚ
deriving DecidableEq

/-- Exceptions the PDF row loop can raise. -/
inductive PdfErr where
  | indexError
  | attributeError
  | numberFormatError
deriving DecidableEq

/-- One iteration of the PDF row loop (app.py lines 33–49): a repeated
header is skipped; `row[0]` on an empty row raises `IndexError` and
`.strip()` on a `None` date cell raises `AttributeError`, both before
the `try` block; a date string `strptime` rejects skips the row; a money
cell `float` rejects raises (`ValueError`).  `ok none` models
`continue`, `ok (some rec)` an appended record. -/
def processRow (headers row : TableRow) : Except PdfErr (Option RawRecord) :=
  if row = headers then .ok none
  else
    match row with
    | [] => .error .indexError
    | none :: _ => .error .attributeError
    | some s :: _ =>
      match parseDMY (pyStrip s) with
      | none => .ok none
      | some dt =>
        let desc : Option String :=
          if 2 < row.length then row.getD 2 none else some ""
        match (if 3 < row.length then to_num (row.getD 3 none) else some 0) with
        | .none => .error .numberFormatError
        | .some mi =>
          match (if 4 < row.length then to_num (row.getD 4 none) else some 0) with
          | .none => .error .numberFormatError
          | .some mo => .ok (some ⟨dt, desc, mi - mo⟩)

/-- The data rows of one table, in order (app.py lines 33–49). -/
def processRows (headers : TableRow) : List TableRow → Except PdfErr (List RawRecord)
  | [] => .ok []
  | r :: rs =>
    match processRow headers r with
    | .error e => .error e
    | .ok none => processRows headers rs
    | .ok (some rec) =>
      match processRows headers rs with
      | .error e => .error e
      | .ok rest => .ok (rec :: rest)

/-- One page (app.py lines 28–49): `extract_table` returns a table or
`None`, and `if not table: continue` skips both `None` and an empty
table; otherwise row 0 is the header. -/
def processPage (pg : Option Table) : Except PdfErr (List RawRecord) :=
  match pg with
  | none => .ok []
  | some [] => .ok []
  | some (headers :: rows) => processRows headers rows

/-- All pages of the PDF, records concatenated in page order. -/
def parsePdfRecords : List (Option Table) → Except PdfErr (List RawRecord)
  | [] => .ok []
  | pg :: pgs =>
    match processPage pg with
    | .error e => .error e
    | .ok recs =>
      match parsePdfRecords pgs with
      | .error e => .error e
      | .ok rest => .ok (recs ++ rest)

/-- The message of the `ValueError` raised at app.py line 56. -/
def schemaMsg : String := "Statement must have Date, Description, Amount columns."

/-- A failure of `parse_bank_statement`, surfaced to `main`. -/
inductive ParseFailure where
  | pdf : PdfErr → ParseFailure
  | schema : String → ParseFailure
deriving DecidableEq

/-- The columns of `pd.DataFrame(records)` (app.py line 50): the three
record keys when `records` is non-empty, and no columns at all when it
is empty — so `df.shape[1] < 3` holds for the PDF branch exactly when no
record was extracted. -/
def pdfColumns (recs : List RawRecord) : List String :=
  if recs.isEmpty then [] else ["Date", "Description", "Amount"]

/-- The PDF branch of `parse_bank_statement` with the shared
column-count check (app.py lines 25–59). -/
def parse_bank_statement_pdf (pages : List (Option Table)) :
    Except ParseFailure (List RawRecord) :=
  match parsePdfRecords pages with
  | .error e => .error (.pdf e)
  | .ok recs =>
    if (pdfColumns recs).length < 3 then .error (.schema schemaMsg)
    else .ok recs

/-- A spreadsheet as `pd.read_excel` returns it: header names and rows. -/
structure Sheet where
  cols : List String
  rows : List (List String)
deriving DecidableEq

/-- The spreadsheet branch of `parse_bank_statement` (app.py lines
52–59): trim header whitespace, raise the schema `ValueError` when fewer
than 3 columns are present, rename the first three columns to
Date/Description/Amount and keep only those.  (The day-first date
coercion of line 58 is independent of the column-count check and is not
modelled.) -/
def parse_bank_statement_sheet (sh : Sheet) : Except ParseFailure Sheet :=
  let cols := sh.cols.map pyStrip
  if cols.length < 3 then .error (.schema schemaMsg)
  else .ok ⟨["Date", "Description", "Amount"], sh.rows.map (fun r => r.take 3)⟩

/-- A ledger entry (app.py lines 79–82). -/
structure LedgerEntry where
  date : Date
  account : String
  debit : ℚ
  credit : ℚ
  narrative : String
deriving DecidableEq

/-- The append-only ledger (app.py lines 75–84). -/
structure Ledger where
  entries : List LedgerEntry
deriving DecidableEq

def Ledger.empty : Ledger := ⟨[]⟩

/-- `Ledger.post` (app.py lines 78–82): append one entry holding exactly
the values given. -/
def Ledger.post (l : Ledger) (date : Date) (account : String)
    (debit credit : ℚ) (narrative : String) : Ledger :=
  ⟨l.entries ++ [⟨date, account, debit, credit, narrative⟩]⟩

/-- A classified transaction: date, description and amount from the
statement, plus the account label the classifier returned. -/
structure LabeledTransaction where
  date : Date
  description : String
  amount : ℚ
  account : String
deriving DecidableEq

/-- The posting rule of `main` (app.py lines 115–120): a non-negative
amount is posted as a debit, a negative one as a credit of its
negation. -/
def postTransaction (l : Ledger) (r : LabeledTransaction) : Ledger :=
  if r.amount ≥ 0 then l.post r.date r.account r.amount 0 r.description
  else l.post r.date r.account 0 (-r.amount) r.description

/-- The posting loop of `main` over the classified rows, in order. -/
def postAll (txs : List LabeledTransaction) : Ledger :=
  txs.foldl postTransaction Ledger.empty

/-- The single ledger entry the posting rule creates for one
transaction. -/
def entryOf (r : LabeledTransaction) : LedgerEntry :=
  if r.amount ≥ 0 then ⟨r.date, r.account, r.amount, 0, r.description⟩
  else ⟨r.date, r.account, 0, -r.amount, r.description⟩

/-- A row of the trial balance (app.py lines 88–89). -/
structure TrialBalanceRow where
  account : String
  debit : ℚ
  credit : ℚ
  balance : ℚ
deriving DecidableEq

/-- Sum of the debits posted to account `a` (the `"Debit":"sum"`
aggregation of app.py line 88). -/
def accountDebits (es : List LedgerEntry) (a : String) : ℚ :=
  ((es.filter (fun e => e.account == a)).map (·.debit)).sum

/-- Sum of the credits posted to account `a`. -/
def accountCredits (es : List LedgerEntry) (a : String) : ℚ :=
  ((es.filter (fun e => e.account == a)).map (·.credit)).sum

def rowFor (es : List LedgerEntry) (a : String) : TrialBalanceRow :=
  ⟨a, accountDebits es a, accountCredits es a,
    accountDebits es a - accountCredits es a⟩

/-- The distinct account strings of the ledger, in sorted order —
`pandas.groupby` emits one group per distinct key, keys sorted. -/
def accountKeys (es : List LedgerEntry) : List String :=
  ((es.map (·.account)).dedup).mergeSort (fun a b => decide (a ≤ b))

/-- `trial_balance` (app.py lines 86–90): `ledger.to_dataframe()` on an
empty entries list is `pd.DataFrame([])`, which has no columns at all,
so `df.groupby("Account")` raises `KeyError: 'Account'`; otherwise
group the entries by exact account string, sum debits and credits per
group, set `balance = debit − credit`. -/
def trial_balance (l : Ledger) : Except String (List TrialBalanceRow) :=
  if l.entries.isEmpty then .error "KeyError: Account"
  else .ok ((accountKeys l.entries).map (rowFor l.entries))

/-- Does `hay` contain `needle` as a contiguous run? -/
def hasSub (needle : List Char) : List Char → Bool
  | [] => needle.isEmpty
  | c :: t => needle.isPrefixOf (c :: t) || hasSub needle t

/-- Python `str.lower()` on the underlying characters. -/
def lowerList (l : List Char) : List Char := l.map Char.toLower

/-- `tb["Account"].str.contains("Sales|Revenue", case=False)` for one
account name (app.py line 141). -/
def matchesSales (a : String) : Bool :=
  hasSub "sales".toList (lowerList a.toList)
    || hasSub "revenue".toList (lowerList a.toList)

/-- `tb["Account"].str.contains("Expenses|Purchases", case=False)` for
one account name (app.py line 142). -/
def matchesPurchases (a : String) : Bool :=
  hasSub "expenses".toList (lowerList a.toList)
    || hasSub "purchases".toList (lowerList a.toList)

/-- The `sales` selection of app.py line 141: sum of `Balance` over the
rows whose account matches the sales pattern. -/
def salesTotal (tb : List TrialBalanceRow) : ℚ :=
  ((tb.filter (fun r => matchesSales r.account)).map (·.balance)).sum

/-- The `purchases` selection of app.py line 142. -/
def purchasesTotal (tb : List TrialBalanceRow) : ℚ :=
  ((tb.filter (fun r => matchesPurchases r.account)).map (·.balance)).sum

structure VATResult where
  outputVat : ℚ
  inputVat : ℚ
  netVatDue : ℚ
deriving DecidableEq

/-- The VAT stage of `main` (app.py lines 141–147). -/
def vatStage (tb : List TrialBalanceRow) : VATResult :=
  ⟨calculate_vat (salesTotal tb), calculate_vat (purchasesTotal tb),
    calculate_vat (salesTotal tb) - calculate_vat (purchasesTotal tb)⟩

/-- The single-side invariant of spec §3 on one ledger entry. -/
def singleSided (e : LedgerEntry) : Prop :=
  (e.debit ≠ 0 ∧ e.credit = 0) ∨ (e.debit = 0 ∧ e.credit ≠ 0)

instance (e : LedgerEntry) : Decidable (singleSided e) := by
  unfold singleSided; infer_instance

/-- A transaction with amount exactly zero (a statement row whose money
columns are both absent or empty). -/
def txZero : LabeledTransaction := ⟨⟨15, 1, 2024⟩, "zero value row", 0, "Bank"⟩

/-- The inflow transaction of the spec §8 scenario. -/
def txSale : LabeledTransaction := ⟨⟨2, 1, 2024⟩, "Sale A", 1000, "Sales"⟩

/-- The outflow transaction of the spec §8 scenario. -/
def txRent : LabeledTransaction := ⟨⟨3, 1, 2024⟩, "Rent", -500, "Expenses"⟩

/-! ## Helper lemmas -/

lemma postTransaction_entries (l : Ledger) (t : LabeledTransaction) :
    (postTransaction l t).entries = l.entries ++ [entryOf t] := by
  unfold postTransaction entryOf Ledger.post
  by_cases h : t.amount ≥ 0 <;> simp [h]

lemma foldl_post_entries (txs : List LabeledTransaction) :
    ∀ l : Ledger, (txs.foldl postTransaction l).entries = l.entries ++ txs.map entryOf := by
  induction txs with
  | nil => intro l; simp
  | cons t ts ih => intro l; simp [List.foldl_cons, ih, postTransaction_entries]

lemma postAll_entries (txs : List LabeledTransaction) :
    (postAll txs).entries = txs.map entryOf := by
  simpa [Ledger.empty] using foldl_post_entries txs Ledger.empty

lemma sum_map_ite_zero (c : ℚ) (b : String) (ks : List String) (hb : b ∉ ks) :
    (ks.map (fun a => if b = a then c else 0)).sum = 0 := by
  induction ks with
  | nil => simp
  | cons k t ih =>
    simp only [List.mem_cons, not_or] at hb
    simp [List.map_cons, if_neg hb.1, ih hb.2]

lemma sum_map_ite_single (c : ℚ) (b : String) :
    ∀ ks : List String, ks.Nodup → b ∈ ks →
      (ks.map (fun a => if b = a then c else 0)).sum = c := by
  intro ks
  induction ks with
  | nil => intro _ h; cases h
  | cons k t ih =>
    intro hnd hmem
    rcases List.mem_cons.mp hmem with h | h
    · subst h
      simp [sum_map_ite_zero c b t (List.nodup_cons.mp hnd).1]
    · have hk : b ≠ k := by
        rintro rfl; exact (List.nodup_cons.mp hnd).1 h
      simp [if_neg hk, ih (List.nodup_cons.mp hnd).2 h]

lemma sum_filter_partition (f : LedgerEntry → ℚ) (ks : List String) (hnd : ks.Nodup) :
    ∀ es : List LedgerEntry, (∀ e ∈ es, e.account ∈ ks) →
      (ks.map (fun a => ((es.filter (fun e => e.account == a)).map f).sum)).sum
        = (es.map f).sum := by
  intro es
  induction es with
  | nil => intro _; simp
  | cons e tl ih =>
    intro hcov
    have he : e.account ∈ ks := hcov e (List.mem_cons_self e tl)
    have htl : ∀ x ∈ tl, x.account ∈ ks := fun x hx => hcov x (List.mem_cons_of_mem e hx)
    have hpt : ∀ a : String,
        (((e :: tl).filter (fun x => x.account == a)).map f).sum
          = (if e.account = a then f e else 0)
            + ((tl.filter (fun x => x.account == a)).map f).sum := by
      intro a
      by_cases h : e.account = a
      · simp [List.filter_cons, h]
      · simp [List.filter_cons, h]
    calc (ks.map fun a => (((e :: tl).filter (fun x => x.account == a)).map f).sum).sum
        = (ks.map fun a => (if e.account = a then f e else 0)
            + ((tl.filter (fun x => x.account == a)).map f).sum).sum := by
          simp only [hpt]
      _ = (ks.map fun a => if e.account = a then f e else 0).sum
            + (ks.map fun a => ((tl.filter (fun x => x.account == a)).map f).sum).sum :=
          List.sum_map_add
      _ = f e + (tl.map f).sum := by
          rw [sum_map_ite_single (f e) e.account ks hnd he, ih htl]
      _ = ((e :: tl).map f).sum := by simp

lemma sum_map_sub_q (g h : String → ℚ) (ks : List String) :
    (ks.map (fun a => g a - h a)).sum = (ks.map g).sum - (ks.map h).sum := by
  induction ks with
  | nil => simp
  | cons k t ih => simp [ih]; ring

lemma accountKeys_perm (es : List LedgerEntry) :
    (accountKeys es).Perm ((es.map (·.account)).dedup) :=
  List.mergeSort_perm _ _

lemma accountKeys_nodup (es : List LedgerEntry) : (accountKeys es).Nodup :=
  (accountKeys_perm es).symm.nodup (List.nodup_dedup _)

lemma mem_accountKeys {a : String} {es : List LedgerEntry} :
    a ∈ accountKeys es ↔ a ∈ es.map (·.account) :=
  ((accountKeys_perm es).mem_iff).trans List.mem_dedup

lemma round2_down (q : ℚ) (n : ℤ) (h1 : (n : ℚ) ≤ q * 100)
    (h2 : q * 100 < (n : ℚ) + 1 / 2) : round2 q = (n : ℚ) / 100 := by
  have hfl : ⌊q * 100⌋ = n := Int.floor_eq_iff.mpr ⟨h1, by linarith⟩
  unfold round2 roundHalfEven
  rw [hfl, if_pos (by linarith)]

/-! ## The claims -/

/-- C2: posting the classified transactions produces exactly one ledger
entry per transaction, in input order (appended, never reordered or
deduplicated), with a non-negative amount posted as a debit of the
amount and a negative amount as a credit of its negation. -/
theorem C2_posting_one_entry_per_transaction (txs : List LabeledTransaction) :
    (postAll txs).entries = txs.map entryOf
    ∧ ∀ t : LabeledTransaction,
        (0 ≤ t.amount → entryOf t = ⟨t.date, t.account, t.amount, 0, t.description⟩)
        ∧ (t.amount < 0 → entryOf t = ⟨t.date, t.account, 0, -t.amount, t.description⟩) := by
  refine ⟨postAll_entries txs, fun t => ⟨fun h => ?_, fun h => ?_⟩⟩
  · simp [entryOf, h]
  · simp [entryOf, not_le.mpr h]

/-- C8 counterexample: the transaction with amount 0 is posted (it does
reach the ledger) yet its entry has debit 0 and credit 0 — neither side
is non-zero, so the claimed invariant fails at amount = 0. -/
theorem C8_zero_amount_entry_has_no_side :
    (postAll [txZero]).entries = [entryOf txZero]
    ∧ (entryOf txZero).debit = 0 ∧ (entryOf txZero).credit = 0
    ∧ ¬ singleSided (entryOf txZero) := by
  have he : entryOf txZero = ⟨⟨15, 1, 2024⟩, "Bank", 0, 0, "zero value row"⟩ := by
    simp [entryOf, txZero]
  refine ⟨postAll_entries [txZero], ?_, ?_, ?_⟩
  · rw [he]
  · rw [he]
  · rw [he]; simp [singleSided]

/-- C8 (amended): every entry created by the posting rule from a
transaction with non-zero amount has exactly one of debit/credit
non-zero; at amount = 0 both sides are zero. -/
theorem C8_nonzero_amount_single_sided (t : LabeledTransaction)
    (h : t.amount ≠ 0) : singleSided (entryOf t) := by
  unfold singleSided entryOf
  by_cases hge : t.amount ≥ 0
  · simp only [if_pos hge]
    exact Or.inl ⟨h, by trivial⟩
  · simp only [if_neg hge]
    exact Or.inr ⟨by trivial, neg_ne_zero.mpr h⟩

/-- C8 witness: the rule applied to the 1000-rand sale yields a
single-sided entry. -/
theorem C8_nonzero_amount_single_sided_witness : singleSided (entryOf txSale) :=
  C8_nonzero_amount_single_sided txSale (by norm_num [txSale])

/-- C9 counterexample: for the −500 transaction the claimed identity
`sum(debit) − sum(credit) = abs(amount)` fails — the difference is −500
while the absolute value is 500. -/
theorem C9_negative_amount_breaks_abs :
    (entryOf txRent).debit - (entryOf txRent).credit = -500
    ∧ |txRent.amount| = 500
    ∧ ¬ ((entryOf txRent).debit - (entryOf txRent).credit = |txRent.amount|) := by
  have hne : ¬ (txRent.amount ≥ 0) := by norm_num [txRent]
  have hd : (entryOf txRent).debit = 0 := by simp [entryOf, if_neg hne]
  have hc : (entryOf txRent).credit = 500 := by
    simp [entryOf, if_neg hne, txRent]; norm_num
  have habs : |txRent.amount| = 500 := by
    simp [txRent]
  refine ⟨by rw [hd, hc]; norm_num, habs, ?_⟩
  rw [hd, hc, habs]
  norm_num

/-- C9 (amended): for every transaction, the entry created from it
satisfies `debit − credit = amount` (hence
`|debit − credit| = |amount|`), posted to the correct side per the
transaction's sign. -/
theorem C9_entry_nets_signed_amount (t : LabeledTransaction) :
    (entryOf t).debit - (entryOf t).credit = t.amount
    ∧ |(entryOf t).debit - (entryOf t).credit| = |t.amount|
    ∧ (0 ≤ t.amount → (entryOf t).debit = t.amount ∧ (entryOf t).credit = 0)
    ∧ (t.amount < 0 → (entryOf t).credit = -t.amount ∧ (entryOf t).debit = 0) := by
  by_cases h : t.amount ≥ 0
  · refine ⟨by simp [entryOf, h], by simp [entryOf, h], fun _ => ⟨by simp [entryOf, h], by simp [entryOf, h]⟩, fun h' => absurd h (not_le.mpr h')⟩
  · refine ⟨by simp [entryOf, h], ?_, fun h' => absurd h' h, fun _ => ⟨by simp [entryOf, h], by simp [entryOf, h]⟩⟩
    simp [entryOf, h]

/-- C1: `to_num` evaluated on the claim's inputs.  Empty and missing
tokens give 0.0, and the markers `R` and `,` are removed so that
`'R 1,234.50'` normalizes like `'1234.50'`; but because the chain
removes every `R` before it looks for `ZAR`, a `ZAR`-marked token is
cleaned to `'ZA1234.50'` and `float` raises, contradicting the claim. -/
theorem C1_to_num_eval :
    to_num none = some 0
    ∧ to_num (some "") = some 0
    ∧ to_num (some "1234.50") = some (2469 / 2)
    ∧ to_num (some "R 1,234.50") = some (2469 / 2)
    ∧ clean "ZAR 1,234.50" = "ZA1234.50"
    ∧ to_num (some "ZAR 1,234.50") = none := by
  have hval : ((natOfDigits ['1', '2', '3', '4'] : ℚ)
      + (natOfDigits ['5', '0'] : ℚ) / 10 ^ 2) = 2469 / 2 := by
    have d1 : natOfDigits ['1', '2', '3', '4'] = 1234 := by decide
    have d2 : natOfDigits ['5', '0'] = 50 := by decide
    rw [d1, d2]; norm_num
  have h3 : to_num (some "1234.50")
      = some ((natOfDigits ['1', '2', '3', '4'] : ℚ)
        + (natOfDigits ['5', '0'] : ℚ) / 10 ^ 2) := by rfl
  have h4 : to_num (some "R 1,234.50")
      = some ((natOfDigits ['1', '2', '3', '4'] : ℚ)
        + (natOfDigits ['5', '0'] : ℚ) / 10 ^ 2) := by rfl
  exact ⟨rfl, rfl, by rw [h3, hval], by rw [h4, hval], by decide, by decide⟩

/-- C4: `calculate_vat` is literally `round(amount * 0.15 / (1 + 0.15), 2)`,
applied to any amount with no error condition, and takes the claimed
values at 115, 0 and −115 (negative inputs are computed as-is). -/
theorem C4_calculate_vat_formula_and_values :
    (∀ a : ℚ, calculate_vat a = round2 (a * (15 / 100) / (1 + 15 / 100)))
    ∧ calculate_vat 115 = 15
    ∧ calculate_vat 0 = 0
    ∧ calculate_vat (-115) = -15 := by
  refine ⟨fun a => rfl, ?_, ?_, ?_⟩
  · have h : round2 (115 * vatRate / (1 + vatRate)) = ((1500 : ℤ) : ℚ) / 100 :=
      round2_down _ 1500 (by norm_num [vatRate]) (by norm_num [vatRate])
    calc calculate_vat 115 = round2 (115 * vatRate / (1 + vatRate)) := rfl
      _ = ((1500 : ℤ) : ℚ) / 100 := h
      _ = 15 := by norm_num
  · have h : round2 (0 * vatRate / (1 + vatRate)) = ((0 : ℤ) : ℚ) / 100 :=
      round2_down _ 0 (by norm_num [vatRate]) (by norm_num [vatRate])
    calc calculate_vat 0 = round2 (0 * vatRate / (1 + vatRate)) := rfl
      _ = ((0 : ℤ) : ℚ) / 100 := h
      _ = 0 := by norm_num
  · have h : round2 (-115 * vatRate / (1 + vatRate)) = ((-1500 : ℤ) : ℚ) / 100 :=
      round2_down _ (-1500) (by norm_num [vatRate]) (by norm_num [vatRate])
    calc calculate_vat (-115) = round2 (-115 * vatRate / (1 + vatRate)) := rfl
      _ = ((-1500 : ℤ) : ℚ) / 100 := h
      _ = -15 := by norm_num

/-- C6: a spreadsheet with fewer than 3 columns makes
`parse_bank_statement` raise the schema `ValueError`, surfaced to the
caller as a failure carrying no transactions. -/
theorem C6_under_columned_sheet_schema_error (sh : Sheet)
    (h : sh.cols.length < 3) :
    parse_bank_statement_sheet sh = .error (.schema schemaMsg) := by
  have hlen : (sh.cols.map pyStrip).length < 3 := by simpa using h
  simp [parse_bank_statement_sheet, hlen, h]

/-- C6 witness: the two-column sheet fails with the schema error. -/
theorem C6_under_columned_sheet_schema_error_witness :
    parse_bank_statement_sheet ⟨["Date", "Amount"], [["01/02/2024", "10"]]⟩
      = .error (.schema schemaMsg) :=
  C6_under_columned_sheet_schema_error ⟨["Date", "Amount"], [["01/02/2024", "10"]]⟩
    (by decide)

/-- C7 counterexample: a data row whose date cell is `None` is not
silently dropped — `row[0].strip()` runs before the `try` block, so the
whole parse fails with `AttributeError`. -/
theorem C7_none_date_cell_raises :
    parse_bank_statement_pdf
        [some [[some "Date", some "Ref", some "Desc"], [none, some "x", some "y"]]]
      = .error (.pdf .attributeError) := by rfl

/-- C7 (amended): a data row whose date cell holds a string (possibly
empty) that `strptime` rejects is excluded from the output without
raising, and parsing continues with the remaining rows; only a row
whose date cell is missing (`None`, or absent entirely) raises. -/
theorem C7_unparsable_date_string_dropped (headers : TableRow) (s : String)
    (rest : TableRow) (rs : List TableRow)
    (hne : ((some s : Cell) :: rest) ≠ headers)
    (hdate : parseDMY (pyStrip s) = none) :
    processRows headers (((some s : Cell) :: rest) :: rs) = processRows headers rs := by
  simp [processRows, processRow, if_neg hne, hdate]

/-- C7 witness: the malformed date `31/31/2020` is dropped and the
following row is still parsed. -/
theorem C7_unparsable_date_string_dropped_witness :
    processRows [some "Date"]
        [[some "31/31/2020"], [some "01/02/2024", some "x", some "y", some "10"]]
      = processRows [some "Date"] [[some "01/02/2024", some "x", some "y", some "10"]] :=
  C7_unparsable_date_string_dropped [some "Date"] "31/31/2020" []
    [[some "01/02/2024", some "x", some "y", some "10"]] (by decide) (by decide)

/-- C10: when PDF extraction yields zero records — no extractable
tables, or every data row dropped — `pd.DataFrame(records)` has no
columns, so the `df.shape[1] < 3` check raises the same schema
`ValueError` as an under-columned spreadsheet. -/
theorem C10_empty_pdf_extraction_schema_error (pages : List (Option Table))
    (h : parsePdfRecords pages = .ok []) :
    parse_bank_statement_pdf pages = .error (.schema schemaMsg) := by
  simp [parse_bank_statement_pdf, h, pdfColumns]

/-- C10 witness: a PDF with a table-less page, an empty table, a
header-only table and a table whose only data row has an unparsable
date extracts zero records and fails with the schema error. -/
theorem C10_empty_pdf_extraction_schema_error_witness :
    parsePdfRecords
        [none, some [], some [[some "Date", some "Ref", some "Desc"]],
          some [[some "Date"], [some "garbage"]]]
      = .ok []
    ∧ parse_bank_statement_pdf
        [none, some [], some [[some "Date", some "Ref", some "Desc"]],
          some [[some "Date"], [some "garbage"]]]
      = .error (.schema schemaMsg) :=
  ⟨by rfl, C10_empty_pdf_extraction_schema_error _ (by rfl)⟩

/-- C5: the VAT stage takes `sales` as the balance sum over the rows
matching Sales/Revenue (case-insensitive), `purchases` over the rows
matching Expenses/Purchases, and reports
`outputVat = calculate_vat sales`, `inputVat = calculate_vat purchases`
and `netVatDue = outputVat − inputVat`; on the spec §8 scenario it
yields 130.43, −65.22 and 195.65. -/
theorem C5_vat_stage_sums_and_rates (tb : List TrialBalanceRow) :
    (vatStage tb).outputVat
        = calculate_vat (((tb.filter (fun r => matchesSales r.account)).map
            (fun r => r.balance)).sum)
    ∧ (vatStage tb).inputVat
        = calculate_vat (((tb.filter (fun r => matchesPurchases r.account)).map
            (fun r => r.balance)).sum)
    ∧ (vatStage tb).netVatDue = (vatStage tb).outputVat - (vatStage tb).inputVat
    ∧ vatStage [⟨"Sales", 1000, 0, 1000⟩, ⟨"Expenses", 0, 500, -500⟩]
        = ⟨13043 / 100, -(3261 / 50), 3913 / 20⟩ := by
  have h1 : matchesSales "Sales" = true := by decide
  have h2 : matchesSales "Expenses" = false := by decide
  have h3 : matchesPurchases "Sales" = false := by decide
  have h4 : matchesPurchases "Expenses" = true := by decide
  have hs : salesTotal [⟨"Sales", 1000, 0, 1000⟩, ⟨"Expenses", 0, 500, -500⟩]
      = (1000 : ℚ) := by
    simp [salesTotal, List.filter_cons, h1, h2]
  have hp : purchasesTotal [⟨"Sales", 1000, 0, 1000⟩, ⟨"Expenses", 0, 500, -500⟩]
      = (-500 : ℚ) := by
    simp [purchasesTotal, List.filter_cons, h3, h4]
  have hos : calculate_vat 1000 = 13043 / 100 := by
    have h : round2 (1000 * vatRate / (1 + vatRate)) = ((13043 : ℤ) : ℚ) / 100 :=
      round2_down _ 13043 (by norm_num [vatRate]) (by norm_num [vatRate])
    calc calculate_vat 1000 = round2 (1000 * vatRate / (1 + vatRate)) := rfl
      _ = ((13043 : ℤ) : ℚ) / 100 := h
      _ = 13043 / 100 := by norm_num
  have hin : calculate_vat (-500) = -(3261 / 50) := by
    have h : round2 (-500 * vatRate / (1 + vatRate)) = ((-6522 : ℤ) : ℚ) / 100 :=
      round2_down _ (-6522) (by norm_num [vatRate]) (by norm_num [vatRate])
    calc calculate_vat (-500) = round2 (-500 * vatRate / (1 + vatRate)) := rfl
      _ = ((-6522 : ℤ) : ℚ) / 100 := h
      _ = -(3261 / 50) := by norm_num
  refine ⟨rfl, rfl, rfl, ?_⟩
  simp only [vatStage, hs, hp, hos, hin, VATResult.mk.injEq]
  norm_num

/-- C3 counterexample: on the empty ledger — reachable in `main` from a
3-column spreadsheet with zero data rows — `trial_balance` raises
`KeyError` (the DataFrame of an empty entries list has no `Account`
column), instead of emitting the zero rows the claim's universal
quantification promises. -/
theorem C3_empty_ledger_keyerror :
    trial_balance Ledger.empty = Except.error "KeyError: Account"
    ∧ trial_balance Ledger.empty ≠ Except.ok [] := by
  refine ⟨rfl, fun h => ?_⟩
  rw [show trial_balance Ledger.empty = Except.error "KeyError: Account" from rfl] at h
  exact Except.noConfusion h

/-- C3 (amended): for every non-empty ledger, `trial_balance` succeeds
and has exactly one row per distinct account (exact, case-sensitive
string), each row carrying the sums of that account's debits and
credits with `balance = debit − credit`, and the balances over all rows
summing to total debits minus total credits of the whole ledger; the
empty ledger instead raises `KeyError`. -/
theorem C3_trial_balance_grouping (l : Ledger) (hne : l.entries ≠ []) :
    ∃ rows : List TrialBalanceRow,
      trial_balance l = .ok rows
      ∧ (rows.map (fun r => r.account)).Nodup
      ∧ (∀ a : String,
          a ∈ rows.map (fun r => r.account) ↔ ∃ e ∈ l.entries, e.account = a)
      ∧ (∀ r ∈ rows,
          r.debit = accountDebits l.entries r.account
          ∧ r.credit = accountCredits l.entries r.account
          ∧ r.balance = r.debit - r.credit)
      ∧ (rows.map (fun r => r.balance)).sum
          = (l.entries.map (fun e => e.debit)).sum
            - (l.entries.map (fun e => e.credit)).sum := by
  have haccmap : ((accountKeys l.entries).map (rowFor l.entries)).map
      (fun r => r.account) = accountKeys l.entries := by
    have hcomp : ((fun r : TrialBalanceRow => r.account) ∘ rowFor l.entries)
        = fun a => a := by funext a; rfl
    rw [List.map_map, hcomp, List.map_id']
  refine ⟨(accountKeys l.entries).map (rowFor l.entries), ?_, ?_, ?_, ?_, ?_⟩
  · rw [trial_balance, if_neg (by simpa using hne)]
  · rw [haccmap]
    exact accountKeys_nodup l.entries
  · intro a
    rw [haccmap, mem_accountKeys]
    exact List.mem_map
  · intro r hr
    obtain ⟨a, _, rfl⟩ := List.mem_map.mp hr
    exact ⟨rfl, rfl, rfl⟩
  · have hcomp : ((fun r : TrialBalanceRow => r.balance) ∘ rowFor l.entries)
        = fun a => accountDebits l.entries a - accountCredits l.entries a := by
      funext a; rfl
    have hperm : (((accountKeys l.entries).map (rowFor l.entries)).map
          (fun r => r.balance)).Perm
        (((l.entries.map (·.account)).dedup).map
          (fun a => accountDebits l.entries a - accountCredits l.entries a)) := by
      rw [List.map_map, hcomp]
      exact (accountKeys_perm l.entries).map _
    have hcov : ∀ e ∈ l.entries, e.account ∈ (l.entries.map (·.account)).dedup :=
      fun e he => List.mem_dedup.mpr (List.mem_map.mpr ⟨e, he, rfl⟩)
    have hD := sum_filter_partition (fun e => e.debit)
      ((l.entries.map (·.account)).dedup) (List.nodup_dedup _) l.entries hcov
    have hC := sum_filter_partition (fun e => e.credit)
      ((l.entries.map (·.account)).dedup) (List.nodup_dedup _) l.entries hcov
    rw [hperm.sum_eq, sum_map_sub_q]
    unfold accountDebits accountCredits
    rw [hD, hC]

/-- C3 witness: the one-entry ledger of the 1000-rand sale has a
grouped trial balance. -/
theorem C3_trial_balance_grouping_witness :
    ∃ rows : List TrialBalanceRow,
      trial_balance ⟨[⟨⟨2, 1, 2024⟩, "Sales", 1000, 0, "Sale A"⟩]⟩ = .ok rows
      ∧ (rows.map (fun r => r.account)).Nodup := by
  obtain ⟨rows, h1, h2, -, -, -⟩ :=
    C3_trial_balance_grouping ⟨[⟨⟨2, 1, 2024⟩, "Sales", 1000, 0, "Sale A"⟩]⟩ (by simp)
  exact ⟨rows, h1, h2⟩

end Bookkeeping
